import Mathlib

set_option maxRecDepth 2000

/-!
Shallow embedding of `src/main.py`, a financial-dialogue QA evaluation
harness.  Python floats are modelled by exact rationals; the float literals
`1e-3`, `1e-4`, `1e-10` of the source are modelled by the exact rationals
they denote, and every concrete comparison below is far from any rounding
boundary, so the Bool outcomes agree with the Python float computation.
Strings are modelled as Lean strings / `List Char`; Python `str` methods
are re-implemented below, restricted to ASCII where Python is
Unicode-aware (no claim exercises non-ASCII input).
-/

/-- Python whitespace set used by `str.strip()` (ASCII part). -/
def pyIsWs (c : Char) : Bool :=
  c == ' ' || c == '\t' || c == '\n' || c == '\r' || c == '\x0b' || c == '\x0c'

/-- Python `str.strip()` on a character list. -/
def pyStrip (cs : List Char) : List Char :=
  ((cs.dropWhile pyIsWs).reverse.dropWhile pyIsWs).reverse

/-- Python `str.lower()` (ASCII). -/
def pyLower (cs : List Char) : List Char := cs.map Char.toLower

/-- Python `str.split(sep)` for a single-character separator:
`"".split(c) = [""]`, `"_".split("_") = ["", ""]`, etc. -/
def pySplit (sep : Char) : List Char → List (List Char)
  | [] => [[]]
  | c :: rest =>
    if c == sep then [] :: pySplit sep rest
    else match pySplit sep rest with
      | [] => [[c]]
      | g :: gs => (c :: g) :: gs

/-- Python `str.isdigit()` restricted to ASCII digits: nonempty and all
digits (`"".isdigit()` is `False` in Python). -/
def pyIsDigit (cs : List Char) : Bool := !cs.isEmpty && cs.all Char.isDigit

/-- DialogueProcessor.extract_dialogue_id, main.py lines 169-183:
split on underscore; if the last segment is all digits, rejoin the rest
with underscores, else return the input unchanged.  `parts` from a Python
`split` is never empty, so `getLastD` with a default is exact. -/
def extract_dialogue_id (full_id : String) : String :=
  let parts := pySplit '_' full_id.toList
  if pyIsDigit (parts.getLastD []) then
    String.mk (List.intercalate ['_'] parts.dropLast)
  else full_id

/-- One entry of `ConversationMemory._messages`: a role-tagged content
string, as built on main.py line 133. -/
structure Message where
  role : String
  content : String
deriving DecidableEq, Repr

/-- State of a `ConversationMemory` object: the `_messages` list and the
optional `_system_prompt` (main.py lines 113-114). -/
structure ConversationMemory where
  messages : List Message
  systemPrompt : Option String
deriving DecidableEq, Repr

/-- ConversationMemory.__init__, main.py lines 106-114. -/
def ConversationMemory.init (system_prompt : Option String) : ConversationMemory :=
  ⟨[], system_prompt⟩

/-- ConversationMemory.set_system_prompt, main.py lines 116-118. -/
def ConversationMemory.set_system_prompt (m : ConversationMemory) (prompt : String) :
    ConversationMemory :=
  { m with systemPrompt := some prompt }

/-- Role check of add_message, main.py line 131. -/
def validRole (role : String) : Bool :=
  role == "user" || role == "assistant" || role == "system"

/-- ConversationMemory.add_message, main.py lines 120-133; the raised
ValueError is modelled as `Except.error`. -/
def ConversationMemory.add_message (m : ConversationMemory) (role content : String) :
    Except String ConversationMemory :=
  if validRole role then
    Except.ok { m with messages := m.messages ++ [⟨role, content⟩] }
  else
    Except.error ("Invalid role: " ++ role ++ ". Must be user, assistant, or system")

/-- ConversationMemory.add_user_message, main.py lines 135-137. -/
def ConversationMemory.add_user_message (m : ConversationMemory) (message : String) :
    Except String ConversationMemory :=
  m.add_message "user" message

/-- ConversationMemory.add_assistant_message, main.py lines 139-141. -/
def ConversationMemory.add_assistant_message (m : ConversationMemory) (message : String) :
    Except String ConversationMemory :=
  m.add_message "assistant" message

/-- ConversationMemory.get_conversation_history, main.py lines 143-148.
The Python guard `if self._system_prompt:` is a truthiness test: it is
False both for `None` and for the empty string. -/
def ConversationMemory.get_conversation_history (m : ConversationMemory) : List Message :=
  (match m.systemPrompt with
   | some p => if p = "" then [] else [⟨"system", p⟩]
   | none => []) ++ m.messages

/-- ConversationMemory.clear, main.py lines 150-153. -/
def ConversationMemory.clear (m : ConversationMemory) : ConversationMemory :=
  ⟨[], none⟩

/-- ConversationMemory.__len__, main.py lines 155-157: the length of the
`_messages` list (the spec calls this operation `size()`). -/
def ConversationMemory.size (m : ConversationMemory) : Nat := m.messages.length

/-- One call in a sequence of ConversationMemory operations. -/
inductive MemOp where
  | setPrompt (prompt : String)
  | addMsg (role content : String)
  | addUser (content : String)
  | addAssistant (content : String)
  | clearMem
deriving DecidableEq, Repr

/-- Effect of one call on the memory state.  A raising `add_message`
(invalid role) leaves the object unchanged, since the exception is thrown
before any mutation (main.py lines 131-133). -/
def applyOp (m : ConversationMemory) : MemOp → ConversationMemory
  | .setPrompt p => m.set_system_prompt p
  | .addMsg r c =>
    match m.add_message r c with
    | .ok m2 => m2
    | .error _ => m
  | .addUser c =>
    match m.add_user_message c with
    | .ok m2 => m2
    | .error _ => m
  | .addAssistant c =>
    match m.add_assistant_message c with
    | .ok m2 => m2
    | .error _ => m
  | .clearMem => m.clear

/-- Run a sequence of calls from a given state. -/
def runOps (m : ConversationMemory) (ops : List MemOp) : ConversationMemory :=
  ops.foldl applyOp m

/-- Messages a sequence of calls appends (in order), ignoring clears. -/
def appendedMsgs : List MemOp → List Message
  | [] => []
  | .setPrompt _ :: t => appendedMsgs t
  | .addMsg r c :: t => (if validRole r then [⟨r, c⟩] else []) ++ appendedMsgs t
  | .addUser c :: t => ⟨"user", c⟩ :: appendedMsgs t
  | .addAssistant c :: t => ⟨"assistant", c⟩ :: appendedMsgs t
  | .clearMem :: t => appendedMsgs t

/-- How one call changes the message count. -/
def sizeStep (n : Nat) : MemOp → Nat
  | .setPrompt _ => n
  | .addMsg r _ => if validRole r then n + 1 else n
  | .addUser _ => n + 1
  | .addAssistant _ => n + 1
  | .clearMem => 0

/-- Message count predicted for a call sequence from a fresh memory:
successful appends of any of the three roles since the last clear. -/
def sizeModel (ops : List MemOp) : Nat := ops.foldl sizeStep 0

/-- Count, among the appended messages, those with a non-system role. -/
def nonSystemCount (ops : List MemOp) : Nat :=
  (appendedMsgs ops).countP (fun m => decide (m.role ≠ "system"))

/-- Value of a digit string, most significant first. -/
def digitsVal (cs : List Char) : Nat :=
  cs.foldl (fun n c => 10 * n + (c.toNat - '0'.toNat)) 0

/-- Mantissa of a Python float literal: digits with an optional single
dot, at least one digit overall; returns the value and the rest. -/
def pyFloatMantissa (cs : List Char) : Option (ℚ × List Char) :=
  let ip := cs.takeWhile Char.isDigit
  let r1 := cs.dropWhile Char.isDigit
  match r1 with
  | '.' :: r2 =>
    let fp := r2.takeWhile Char.isDigit
    if ip.isEmpty && fp.isEmpty then none
    else some ((digitsVal ip : ℚ) + (digitsVal fp : ℚ) / 10 ^ fp.length,
               r2.dropWhile Char.isDigit)
  | _ => if ip.isEmpty then none else some ((digitsVal ip : ℚ), r1)

/-- Optional exponent part of a Python float literal, which must consume
the whole remaining input. -/
def pyFloatExp (q : ℚ) : List Char → Option ℚ
  | [] => some q
  | c :: t =>
    if c == 'e' then
      let (eneg, t2) : Bool × List Char :=
        match t with
        | '+' :: u => (false, u)
        | '-' :: u => (true, u)
        | u => (false, u)
      let ds := t2.takeWhile Char.isDigit
      if ds.isEmpty || !(t2.dropWhile Char.isDigit).isEmpty then none
      else some (if eneg then q / 10 ^ digitsVal ds else q * 10 ^ digitsVal ds)
    else none

/-- Python `float(s)` on an already-stripped, lower-cased string, as an
exact rational.  `inf`, `nan` and underscore digit separators, which
Python also accepts, are not modelled (no finite rational counterpart /
not exercised by any claim). -/
def pyFloat (cs : List Char) : Option ℚ :=
  let (neg, cs1) : Bool × List Char :=
    match cs with
    | '+' :: t => (false, t)
    | '-' :: t => (true, t)
    | t => (false, t)
  match pyFloatMantissa cs1 with
  | none => none
  | some (q, rest) => (pyFloatExp q rest).map (fun v => if neg then -v else v)

/-- normalize_answer, main.py lines 301-319.  The argument models the
Python value: `none` is Python `None`; `some s` is a value whose `str()`
form is `s`.  Strips and lower-cases, deletes every space, dollar and
percent character, then parses as a float; any parse failure (which in
Python prints a warning) yields `0.0`. -/
def normalize_answer (x : Option String) : ℚ :=
  match x with
  | none => 0
  | some s =>
    let cs := pyLower (pyStrip s.toList)
    let cs := cs.filter (fun c => !(c == ' ' || c == '$' || c == '%'))
    match pyFloat cs with
    | some v => v
    | none => 0

/-- answers_match, main.py lines 322-341.  The Python defaults are
`relative_tolerance = 1e-3`, `absolute_tolerance = 1e-4`; here both are
explicit arguments.  The division floor `1e-10` is the exact rational
`1 / 10 ^ 10`. -/
def answers_match (pred gold : Option String)
    (relative_tolerance absolute_tolerance : ℚ) : Bool :=
  let pred_num := normalize_answer pred
  let gold_num := normalize_answer gold
  let abs_diff := |pred_num - gold_num|
  let rel_diff := abs_diff / max |gold_num| (1 / 10 ^ 10)
  decide (abs_diff ≤ absolute_tolerance) || decide (rel_diff ≤ relative_tolerance)

/-- JSON value as produced by Python `json.loads`: objects are modelled
as key/value lists in parse order (Python dicts keep the last binding for
a duplicated key, so lookups below take the last match); numbers are
exact rationals (Python distinguishes int and float — see the rendering
note at `pyStrOfJson`). -/
inductive Json where
  | null
  | bool (b : Bool)
  | num (q : ℚ)
  | str (s : String)
  | arr (elems : List Json)
  | obj (members : List (String × Json))
deriving Repr

/-- JSON insignificant whitespace skip. -/
def jsonWsSkip (cs : List Char) : List Char :=
  cs.dropWhile (fun c => c == ' ' || c == '\t' || c == '\n' || c == '\r')

/-- Single-character JSON string escapes. -/
def escChar (e : Char) : Option Char :=
  if e == '"' then some '"'
  else if e == '\\' then some '\\'
  else if e == '/' then some '/'
  else if e == 'b' then some (Char.ofNat 8)
  else if e == 'f' then some (Char.ofNat 12)
  else if e == 'n' then some '\n'
  else if e == 'r' then some '\r'
  else if e == 't' then some '\t'
  else none

/-- Hexadecimal digit value, written over the ASCII codes: 48-57 are
the digits, 97-102 the lowercase and 65-70 the uppercase hex letters. -/
def hexVal (c : Char) : Option Nat :=
  let n := c.toNat
  if 48 ≤ n ∧ n ≤ 57 then some (n - 48)
  else if 97 ≤ n ∧ n ≤ 102 then some (n - 87)
  else if 65 ≤ n ∧ n ≤ 70 then some (n - 55)
  else none

/-- Body of a JSON string after the opening quote: returns the decoded
characters and the rest after the closing quote.  Raw control characters
are rejected, standard escapes and `\uXXXX` are decoded.  The fuel is
an upper bound on the characters consumed. -/
def jsonStringBody : Nat → List Char → Option (List Char × List Char)
  | 0, _ => none
  | _ + 1, [] => none
  | fuel + 1, c :: t =>
    if c == '"' then some ([], t)
    else if c == '\\' then
      match t with
      | [] => none
      | e :: t2 =>
        if e == 'u' then
          match t2 with
          | h1 :: h2 :: h3 :: h4 :: t3 =>
            match hexVal h1, hexVal h2, hexVal h3, hexVal h4 with
            | some a, some b, some c2, some d =>
              (jsonStringBody fuel t3).map
                (fun p => (Char.ofNat (((a * 16 + b) * 16 + c2) * 16 + d) :: p.1, p.2))
            | _, _, _, _ => none
          | _ => none
        else
          match escChar e with
          | some ec => (jsonStringBody fuel t2).map (fun p => (ec :: p.1, p.2))
          | none => none
    else if c.toNat < 32 then none
    else (jsonStringBody fuel t).map (fun p => (c :: p.1, p.2))

/-- Optional exponent of a JSON number; unlike a Python float it need not
consume the whole input. -/
def jsonExp (q : ℚ) (r : List Char) : Option (ℚ × List Char) :=
  match r with
  | c :: t =>
    if c == 'e' || c == 'E' then
      let (eneg, t2) : Bool × List Char :=
        match t with
        | '+' :: u => (false, u)
        | '-' :: u => (true, u)
        | u => (false, u)
      let ds := t2.takeWhile Char.isDigit
      if ds.isEmpty then none
      else some (if eneg then q / 10 ^ digitsVal ds else q * 10 ^ digitsVal ds,
                 t2.dropWhile Char.isDigit)
    else some (q, r)
  | [] => some (q, [])

/-- JSON number: optional minus, integer part without leading zeros,
optional fraction, optional exponent. -/
def jsonNumber (cs : List Char) : Option (ℚ × List Char) :=
  let (neg, cs1) : Bool × List Char :=
    match cs with
    | '-' :: t => (true, t)
    | t => (false, t)
  let ip := cs1.takeWhile Char.isDigit
  let r1 := cs1.dropWhile Char.isDigit
  if ip.isEmpty then none
  else if 1 < ip.length && ip.headD '0' == '0' then none
  else
    let step2 : Option (ℚ × List Char) :=
      match r1 with
      | '.' :: r2 =>
        let fp := r2.takeWhile Char.isDigit
        if fp.isEmpty then none
        else some ((digitsVal ip : ℚ) + (digitsVal fp : ℚ) / 10 ^ fp.length,
                   r2.dropWhile Char.isDigit)
      | _ => some ((digitsVal ip : ℚ), r1)
    match step2 with
    | none => none
    | some (q, r3) =>
      (jsonExp q r3).map (fun p => (if neg then -p.1 else p.1, p.2))

mutual

/-- JSON value parser.  Each recursive call strictly decreases the fuel,
and every nesting or iteration step consumes input, so any fuel above
twice the input length behaves like an unbounded parser. -/
def jsonValue : Nat → List Char → Option (Json × List Char)
  | 0, _ => none
  | fuel + 1, cs =>
    match jsonWsSkip cs with
    | [] => none
    | c :: t =>
      if c == '"' then
        (jsonStringBody (t.length + 1) t).map (fun p => (Json.str (String.mk p.1), p.2))
      else if c == Char.ofNat 123 then jsonMembersStart fuel t
      else if c == '[' then jsonElemsStart fuel t
      else if c == 'n' then
        match t with
        | 'u' :: 'l' :: 'l' :: r => some (Json.null, r)
        | _ => none
      else if c == 't' then
        match t with
        | 'r' :: 'u' :: 'e' :: r => some (Json.bool true, r)
        | _ => none
      else if c == 'f' then
        match t with
        | 'a' :: 'l' :: 's' :: 'e' :: r => some (Json.bool false, r)
        | _ => none
      else (jsonNumber (c :: t)).map (fun p => (Json.num p.1, p.2))

/-- Array contents after `[`. -/
def jsonElemsStart : Nat → List Char → Option (Json × List Char)
  | 0, _ => none
  | fuel + 1, cs =>
    match jsonWsSkip cs with
    | ']' :: r => some (Json.arr [], r)
    | cs2 =>
      match jsonValue fuel cs2 with
      | some (v, r) => jsonElemsRest fuel [v] r
      | none => none

/-- Further array elements, accumulated in reverse. -/
def jsonElemsRest : Nat → List Json → List Char → Option (Json × List Char)
  | 0, _, _ => none
  | fuel + 1, acc, cs =>
    match jsonWsSkip cs with
    | ']' :: r => some (Json.arr acc.reverse, r)
    | ',' :: r =>
      match jsonValue fuel r with
      | some (v, r2) => jsonElemsRest fuel (v :: acc) r2
      | none => none
    | _ => none

/-- Object contents after the opening brace. -/
def jsonMembersStart : Nat → List Char → Option (Json × List Char)
  | 0, _ => none
  | fuel + 1, cs =>
    match jsonWsSkip cs with
    | [] => none
    | c :: r =>
      if c == Char.ofNat 125 then some (Json.obj [], r)
      else if c == '"' then
        match jsonStringBody (r.length + 1) r with
        | some (k, r2) =>
          match jsonWsSkip r2 with
          | ':' :: r3 =>
            match jsonValue fuel r3 with
            | some (v, r4) => jsonMembersRest fuel [(String.mk k, v)] r4
            | none => none
          | _ => none
        | none => none
      else none

/-- Further object members, accumulated in reverse. -/
def jsonMembersRest : Nat → List (String × Json) → List Char → Option (Json × List Char)
  | 0, _, _ => none
  | fuel + 1, acc, cs =>
    match jsonWsSkip cs with
    | [] => none
    | c :: r =>
      if c == Char.ofNat 125 then some (Json.obj acc.reverse, r)
      else if c == ',' then
        match jsonWsSkip r with
        | '"' :: r2 =>
          match jsonStringBody (r2.length + 1) r2 with
          | some (k, r3) =>
            match jsonWsSkip r3 with
            | ':' :: r4 =>
              match jsonValue fuel r4 with
              | some (v, r5) => jsonMembersRest fuel ((String.mk k, v) :: acc) r5
              | none => none
            | _ => none
          | none => none
        | _ => none
      else none

end

/-- Python `json.loads`: parse one JSON value and require only
whitespace after it.  The nonstandard `NaN`/`Infinity` literals that
Python's decoder additionally accepts are not modelled (IEEE special
values, no rational counterpart, not exercised by any claim). -/
def json_loads (cs : List Char) : Option Json :=
  match jsonValue (2 * cs.length + 2) cs with
  | some (v, rest) => if (jsonWsSkip rest).isEmpty then some v else none
  | none => none

/-- Fence-stripping pipeline of parse_llm_response, main.py lines
360-368 plus the final `.strip()` of line 370: strip, drop a leading
"```json" (7 characters), drop a leading "```", drop a trailing "```",
strip again. -/
def clean_response (response_text : String) : List Char :=
  let cleaned := pyStrip response_text.toList
  let cleaned := if "```json".toList.isPrefixOf cleaned then cleaned.drop 7 else cleaned
  let cleaned := if "```".toList.isPrefixOf cleaned then cleaned.drop 3 else cleaned
  let cleaned :=
    if "```".toList.isSuffixOf cleaned then cleaned.take (cleaned.length - 3) else cleaned
  pyStrip cleaned

/-- parse_llm_response, main.py lines 347-372: the raised
JSONParsingError is modelled as `Except.error`. -/
def parse_llm_response (response_text : String) : Except String Json :=
  match json_loads (clean_response response_text) with
  | some v => Except.ok v
  | none => Except.error "Failed to parse JSON"

/-- Python `dict.get(key)` on a parse-ordered member list: the last
binding wins, as in a Python dict built with duplicate keys. -/
def pyDictGet (key : String) (d : List (String × Json)) : Option Json :=
  (d.reverse.find? (fun p => p.1 == key)).map (fun p => p.2)

/- Python `str()` of a JSON-derived value, as fed to normalize_answer.
Integers render exactly; the shortest-roundtrip repr of a non-integral
Python float is floating-point behaviour outside this embedding, and the
container branches approximate Python's repr-based rendering — none of
these branches is reached by any claim (each yields a string no float
parse accepts, exactly as in Python, so normalize_answer agrees). -/
mutual

/-- Rendering of one JSON-derived value, see the comment above. -/
def pyStrOfJson : Json → String
  | .null => "None"
  | .bool b => if b then "True" else "False"
  | .num q => if q.den == 1 then toString q.num else toString q
  | .str s => s
  | .arr elems => "[" ++ pyStrElems elems ++ "]"
  | .obj members => "\x7b" ++ pyStrMembers members ++ "\x7d"

/-- Comma-separated rendering of array elements. -/
def pyStrElems : List Json → String
  | [] => ""
  | [x] => pyStrOfJson x
  | x :: r => pyStrOfJson x ++ ", " ++ pyStrElems r

/-- Comma-separated rendering of object members. -/
def pyStrMembers : List (String × Json) → String
  | [] => ""
  | [(k, v)] => k ++ ": " ++ pyStrOfJson v
  | (k, v) :: r => k ++ ": " ++ pyStrOfJson v ++ ", " ++ pyStrMembers r

end

/-- Outcome of one turn of the scoring loop. -/
inductive TurnOutcome where
  | errTurn
  | correct
  | incorrect
deriving DecidableEq, Repr

/-- Predicted value passed to answers_match for a parsed response:
`response.get("answer", "")` (main.py line 540), with a JSON `null`
becoming Python `None` and any other value rendered by `str()` inside
normalize_answer. -/
def turn_pred (response : List (String × Json)) : Option String :=
  match pyDictGet "answer" response with
  | Option.none => some ""
  | some Json.null => Option.none
  | some j => some (pyStrOfJson j)

/-- One turn of the scoring loop of evaluate_dialogue, main.py lines
536-544: a response carrying an "error" key counts as an error turn,
otherwise the turn is scored via answers_match. -/
def score_turn (response : List (String × Json)) (gold : String)
    (rtol atol : ℚ) : TurnOutcome :=
  if (pyDictGet "error" response).isSome then .errTurn
  else if answers_match (turn_pred response) (some gold) rtol atol then .correct
  else .incorrect

/-! Helper lemmas about call sequences. -/

lemma applyOp_size (m : ConversationMemory) (o : MemOp) :
    (applyOp m o).size = sizeStep m.size o := by
  cases o with
  | setPrompt p => rfl
  | addMsg r c =>
    by_cases h : validRole r = true
    · simp [applyOp, ConversationMemory.add_message, h, ConversationMemory.size, sizeStep]
    · simp [applyOp, ConversationMemory.add_message, h, ConversationMemory.size, sizeStep]
  | addUser c =>
    simp [applyOp, ConversationMemory.add_user_message, ConversationMemory.add_message,
      validRole, ConversationMemory.size, sizeStep]
  | addAssistant c =>
    simp [applyOp, ConversationMemory.add_assistant_message, ConversationMemory.add_message,
      validRole, ConversationMemory.size, sizeStep]
  | clearMem => rfl

lemma runOps_size (m : ConversationMemory) (ops : List MemOp) :
    (runOps m ops).size = ops.foldl sizeStep m.size := by
  induction ops generalizing m with
  | nil => rfl
  | cons o t ih =>
    show (runOps (applyOp m o) t).size = t.foldl sizeStep (sizeStep m.size o)
    rw [ih, applyOp_size]

lemma runOps_messages (m : ConversationMemory) (ops : List MemOp)
    (h : ∀ o ∈ ops, o ≠ MemOp.clearMem) :
    (runOps m ops).messages = m.messages ++ appendedMsgs ops := by
  induction ops generalizing m with
  | nil => simp [runOps, appendedMsgs]
  | cons o t ih =>
    have ho : o ≠ MemOp.clearMem := h o (List.mem_cons_self o t)
    have ht : ∀ x ∈ t, x ≠ MemOp.clearMem := fun x hx => h x (List.mem_cons_of_mem o hx)
    show (runOps (applyOp m o) t).messages = _
    rw [ih (applyOp m o) ht]
    cases o with
    | clearMem => exact absurd rfl ho
    | setPrompt p => simp [applyOp, ConversationMemory.set_system_prompt, appendedMsgs]
    | addMsg r c =>
      by_cases hv : validRole r = true
      · simp [applyOp, ConversationMemory.add_message, hv, appendedMsgs]
      · simp [applyOp, ConversationMemory.add_message, hv, appendedMsgs]
    | addUser c =>
      simp [applyOp, ConversationMemory.add_user_message, ConversationMemory.add_message,
        validRole, appendedMsgs]
    | addAssistant c =>
      simp [applyOp, ConversationMemory.add_assistant_message, ConversationMemory.add_message,
        validRole, appendedMsgs]

/-! Claim theorems. -/

/-- C1 counterexample: at pred "100.0", gold "100.05", relTol 1e-3,
absTol 1e-4, answers_match does NOT return false (the relative
difference 1/2001 is within the relative tolerance). -/
theorem answers_match_100_claim_counterexample :
    ¬ (answers_match (some "100.0") (some "100.05") (1 / 1000) (1 / 10000) = false) := by
  with_unfolding_all decide

/-- C1 (amended): answersMatch applied to pred 100.0 and gold 100.05
with relative tolerance 1e-3 and absolute tolerance 1e-4 returns true:
the absolute difference 0.05 exceeds absTol, but the relative difference
1/2001 is within relTol, and the rule is a logical OR. -/
theorem answers_match_100_amended :
    answers_match (some "100.0") (some "100.05") (1 / 1000) (1 / 10000) = true ∧
    ¬ (|normalize_answer (some "100.0") - normalize_answer (some "100.05")| ≤ 1 / 10000) ∧
    |normalize_answer (some "100.0") - normalize_answer (some "100.05")| /
        max |normalize_answer (some "100.05")| (1 / 10 ^ 10) ≤ 1 / 1000 := by
  with_unfolding_all decide

/-- C2: answers_match returns true iff the absolute difference of the
normalized values is at most absTol OR the relative difference (absolute
difference divided by the larger of the gold magnitude and the 1e-10
floor) is at most relTol; in particular equality with absTol yields
true. -/
theorem answers_match_tolerance_rule (pred gold : Option String) (rtol atol : ℚ) :
    (answers_match pred gold rtol atol = true ↔
      |normalize_answer pred - normalize_answer gold| ≤ atol ∨
      |normalize_answer pred - normalize_answer gold| /
          max |normalize_answer gold| (1 / 10 ^ 10) ≤ rtol) ∧
    (|normalize_answer pred - normalize_answer gold| = atol →
      answers_match pred gold rtol atol = true) := by
  constructor
  · simp [answers_match]
  · intro h
    simp [answers_match]
    exact Or.inl (le_of_eq h)

/-- C2 witness: at the boundary where the absolute difference equals
absTol exactly, answers_match returns true. -/
theorem answers_match_tolerance_rule_witness :
    answers_match (some "2.0") (some "3.0") 0 1 = true :=
  (answers_match_tolerance_rule (some "2.0") (some "3.0") 0 1).2 (by
    have h1 : normalize_answer (some "2.0") = 2 := by with_unfolding_all decide
    have h2 : normalize_answer (some "3.0") = 3 := by with_unfolding_all decide
    rw [h1, h2, show (2 : ℚ) - 3 = -1 by norm_num, abs_neg, abs_one])

/-- C3 counterexample: appending one message with role "system" gives
size 1, while the count of non-system messages appended is 0, so size is
not the count of non-system messages. -/
theorem size_nonsystem_counterexample :
    (runOps (ConversationMemory.init none) [MemOp.addMsg "system" "note"]).size = 1 ∧
    nonSystemCount [MemOp.addMsg "system" "note"] = 0 := by
  decide

/-- C3 (amended): for every sequence of operations, size equals the
count of messages successfully appended via addMessage (any of the three
valid roles, system-role messages included) since the last clear; the
system prompt never contributes. -/
theorem size_counts_all_appends (sp : Option String) (ops : List MemOp) :
    (runOps (ConversationMemory.init sp) ops).size = sizeModel ops := by
  have h := runOps_size (ConversationMemory.init sp) ops
  simpa [sizeModel, ConversationMemory.init, ConversationMemory.size] using h

/-- C4: for a role outside the three valid ones, add_message fails with
the invalid-role error and the memory is unchanged; for each valid role
it appends exactly one record. -/
theorem add_message_role_spec :
    (∀ (m : ConversationMemory) (r c : String),
        r ≠ "user" → r ≠ "assistant" → r ≠ "system" →
          m.add_message r c =
            Except.error ("Invalid role: " ++ r ++ ". Must be user, assistant, or system") ∧
          applyOp m (MemOp.addMsg r c) = m) ∧
    (∀ (m : ConversationMemory) (c : String), ∀ r ∈ ["user", "assistant", "system"],
        m.add_message r c = Except.ok { m with messages := m.messages ++ [⟨r, c⟩] }) := by
  constructor
  · intro m r c h1 h2 h3
    have hv : validRole r = false := by
      simp [validRole, h1, h2, h3]
    constructor
    · simp [ConversationMemory.add_message, hv]
    · simp [applyOp, ConversationMemory.add_message, hv]
  · intro m c r hr
    simp only [List.mem_cons, List.not_mem_nil, or_false] at hr
    rcases hr with rfl | rfl | rfl <;> rfl

/-- C4 witness: at role "moderator" the call fails with the invalid-role
error and leaves the memory unchanged. -/
theorem add_message_role_spec_witness :
    (ConversationMemory.init none).add_message "moderator" "x" =
      Except.error ("Invalid role: " ++ "moderator" ++ ". Must be user, assistant, or system") ∧
    applyOp (ConversationMemory.init none) (MemOp.addMsg "moderator" "x") =
      ConversationMemory.init none :=
  add_message_role_spec.1 (ConversationMemory.init none) "moderator" "x"
    (by decide) (by decide) (by decide)

/-- C5 counterexample: after setSystemPrompt("") a system prompt has
been set (the field holds the empty string), yet getHistory returns only
the appended message, without the system prompt first. -/
theorem history_prompt_counterexample :
    (runOps (ConversationMemory.init none)
        [MemOp.setPrompt "", MemOp.addUser "hi"]).systemPrompt = some "" ∧
    (runOps (ConversationMemory.init none)
        [MemOp.setPrompt "", MemOp.addUser "hi"]).get_conversation_history =
      [⟨"user", "hi"⟩] := by
  decide

/-- C5 (amended): for every interleaving of setSystemPrompt and
message-adding calls (no clear), if the resulting system prompt is set
and nonempty, getHistory returns it first, followed by all appended
messages in insertion order. -/
theorem history_prompt_first (ops : List MemOp) (p : String)
    (hnc : ∀ o ∈ ops, o ≠ MemOp.clearMem)
    (hp : (runOps (ConversationMemory.init none) ops).systemPrompt = some p)
    (hne : p ≠ "") :
    (runOps (ConversationMemory.init none) ops).get_conversation_history =
      ⟨"system", p⟩ :: appendedMsgs ops := by
  have hm := runOps_messages (ConversationMemory.init none) ops hnc
  simp only [ConversationMemory.get_conversation_history, hp, hm]
  rw [if_neg hne]
  simp [ConversationMemory.init]

/-- C5 witness: a concrete interleaving with a nonempty prompt set after
construction. -/
theorem history_prompt_first_witness :
    (runOps (ConversationMemory.init none)
        [MemOp.setPrompt "sys", MemOp.addUser "q"]).get_conversation_history =
      ⟨"system", "sys"⟩ :: appendedMsgs [MemOp.setPrompt "sys", MemOp.addUser "q"] :=
  history_prompt_first [MemOp.setPrompt "sys", MemOp.addUser "q"] "sys"
    (by decide) (by decide) (by decide)

/-- C6: parse_llm_response strips fences and parses the remainder,
succeeding on the fenced example with the object mapping "answer" to 5,
failing with a parsing error on "not json", and in general failing
exactly when the cleaned remainder is not valid JSON. -/
theorem parse_llm_response_spec :
    parse_llm_response "```json\n\x7b\"answer\": 5\x7d\n```" =
      Except.ok (Json.obj [("answer", Json.num 5)]) ∧
    parse_llm_response "not json" = Except.error "Failed to parse JSON" ∧
    ∀ s : String,
      (parse_llm_response s = Except.error "Failed to parse JSON" ↔
        json_loads (clean_response s) = none) ∧
      ∀ j : Json, json_loads (clean_response s) = some j →
        parse_llm_response s = Except.ok j := by
  refine ⟨rfl, rfl, ?_⟩
  intro s
  refine ⟨⟨fun h => ?_, fun h => by simp [parse_llm_response, h]⟩,
    fun j hj => by simp [parse_llm_response, hj]⟩
  cases hj : json_loads (clean_response s) with
  | none => rfl
  | some v => simp [parse_llm_response, hj] at h

/-- C6 witness: a bare JSON number parses to itself. -/
theorem parse_llm_response_spec_witness :
    parse_llm_response "7" = Except.ok (Json.num 7) :=
  (parse_llm_response_spec.2.2 "7").2 (Json.num 7) rfl

/-- C7: normalize_answer returns 0 for a missing value, 12.5 for
"12.5%", 1000 for "$1000", and 0 for the unparseable "abc". -/
theorem normalize_answer_examples :
    normalize_answer none = 0 ∧
    normalize_answer (some "12.5%") = 12.5 ∧
    normalize_answer (some "$1000") = 1000 ∧
    normalize_answer (some "abc") = 0 := by
  with_unfolding_all decide

/-- C8: extract_dialogue_id drops a trailing all-digit segment (rejoined
on underscore) and otherwise returns the input unchanged; in particular
"abc_3" gives "abc" and "abc_def" is unchanged. -/
theorem extract_dialogue_id_spec :
    extract_dialogue_id "abc_3" = "abc" ∧
    extract_dialogue_id "abc_def" = "abc_def" ∧
    ∀ s : String,
      (pyIsDigit ((pySplit '_' s.toList).getLastD []) = true →
        extract_dialogue_id s =
          String.mk (List.intercalate ['_'] (pySplit '_' s.toList).dropLast)) ∧
      (pyIsDigit ((pySplit '_' s.toList).getLastD []) = false →
        extract_dialogue_id s = s) := by
  refine ⟨by decide, by decide, ?_⟩
  intro s
  constructor
  · intro h
    simp only [extract_dialogue_id, h]
    simp
  · intro h
    simp only [extract_dialogue_id, h]
    simp

/-- C8 witness: a two-underscore identifier with numeric suffix. -/
theorem extract_dialogue_id_spec_witness :
    extract_dialogue_id "dialogue_7_0" =
      String.mk (List.intercalate ['_'] (pySplit '_' "dialogue_7_0".toList).dropLast) :=
  (extract_dialogue_id_spec.2.2 "dialogue_7_0").1 (by decide)

/-- C9: when the system prompt is the empty string (set after
construction or passed to the constructor), getHistory omits the system
entry and returns only the appended messages. -/
theorem empty_prompt_omitted (m : ConversationMemory) :
    (m.set_system_prompt "").get_conversation_history = m.messages ∧
    (ConversationMemory.init (some "")).get_conversation_history = [] := by
  simp [ConversationMemory.get_conversation_history, ConversationMemory.set_system_prompt,
    ConversationMemory.init]

/-- C10: a scored (non-error) parsed response lacking an "answer" field
is compared with predicted value the empty string, which normalizes to
0; the turn is counted correct exactly when the gold answer normalizes
to within the configured tolerances of 0. -/
theorem missing_answer_scored_as_empty (response : List (String × Json)) (gold : String)
    (rtol atol : ℚ)
    (hans : pyDictGet "answer" response = none)
    (herr : pyDictGet "error" response = none) :
    turn_pred response = some "" ∧
    normalize_answer (some "") = 0 ∧
    (score_turn response gold rtol atol = TurnOutcome.correct ↔
      (|normalize_answer (some gold)| ≤ atol ∨
        |normalize_answer (some gold)| / max |normalize_answer (some gold)| (1 / 10 ^ 10)
          ≤ rtol)) := by
  have hp : turn_pred response = some "" := by simp [turn_pred, hans]
  have hz : normalize_answer (some "") = 0 := by decide
  refine ⟨hp, hz, ?_⟩
  have key : score_turn response gold rtol atol = TurnOutcome.correct ↔
      answers_match (some "") (some gold) rtol atol = true := by
    by_cases hb : answers_match (some "") (some gold) rtol atol = true
    · simp [score_turn, herr, hp, hb]
    · simp [score_turn, herr, hp, hb]
  rw [key]
  simp [answers_match, hz, zero_sub, abs_neg]

/-- C10 witness: the empty response lacks both keys; with gold "0" the
turn is counted correct, matching the zero-tolerance condition. -/
theorem missing_answer_scored_as_empty_witness :
    turn_pred [] = some "" ∧
    normalize_answer (some "") = 0 ∧
    (score_turn [] "0" (1 / 1000) (1 / 10000) = TurnOutcome.correct ↔
      (|normalize_answer (some "0")| ≤ 1 / 10000 ∨
        |normalize_answer (some "0")| / max |normalize_answer (some "0")| (1 / 10 ^ 10)
          ≤ 1 / 1000)) :=
  missing_answer_scored_as_empty [] "0" (1 / 1000) (1 / 10000) rfl rfl
